import Mathlib

/-!
Verification of the Companion-Link context relay and injection pipeline.

Shallow embedding of:
- `src/SillyTavern-CompanionLink/server/index.js` (server plugin: state and
  the POST /inject, GET /context, POST /clear, POST /trigger handlers);
- `src/SillyTavern-CompanionLink/index.js` (UI extension: `fetchLatestContext`,
  `buildInjectionText`, `companionLinkInterceptor`).

Machine times are modelled as milliseconds (`Nat` for clock readings, `Int`
for differences, matching JS number arithmetic on date differences); JS
falsy/truthy checks on optional strings are made explicit via `jsTruthyStr`.
-/

namespace CompanionLink

/-- JS truthiness of an optional string: `undefined`, `null` and `""` are falsy. -/
def jsTruthyStr : Option String → Bool
  | none => false
  | some s => !(s == "")

/-- JS `a || b` for an optional string `a` with string default `b`. -/
def jsOr (o : Option String) (d : String) : String :=
  match o with
  | none => d
  | some s => if s == "" then d else s

/-- `Math.round(ms / 1000)` computed exactly on integer milliseconds:
`floor (ms/1000 + 1/2)`. -/
def jsRound (ms : Int) : Int := (ms + 500).fdiv 1000

/-- `parseInt` on a decimal string: leading spaces skipped, then the maximal
digit run; `none` models `NaN` (no digits). -/
def jsParseInt (s : String) : Option Nat :=
  let ds := (s.data.dropWhile (fun c => c == ' ')).takeWhile Char.isDigit
  if ds.isEmpty then none
  else some (ds.foldl (fun acc c => acc * 10 + (c.toNat - 48)) 0)

/-- Does `pat` occur at the head of `l`? (helper for JS `String.includes`.) -/
def leadMatch : List Char → List Char → Bool
  | [], _ => true
  | _ :: _, [] => false
  | a :: as, b :: bs => a == b && leadMatch as bs

/-- Does `pat` occur contiguously anywhere in `l`? -/
def seqContains (pat : List Char) : List Char → Bool
  | [] => leadMatch pat []
  | l@(_ :: tl) => leadMatch pat l || seqContains pat tl

/-- JS `s.includes(pat)`. -/
def strIncludes (s pat : String) : Bool := seqContains pat.data s.data

/-- JS `String.prototype.split` on a character class: runs of separators give
empty tokens, exactly as in JS. -/
def splitByAux (p : Char → Bool) : List Char → List Char → List String
  | [], acc => [String.mk acc.reverse]
  | c :: cs, acc =>
    if p c then String.mk acc.reverse :: splitByAux p cs []
    else splitByAux p cs (c :: acc)

/-- Split a string at every character satisfying `p`. -/
def strSplitBy (p : Char → Bool) (s : String) : List String := splitByAux p s.data []

/-- Whitespace for `trim`. -/
def isWs (c : Char) : Bool := c == ' ' || c == '\t' || c == '\n' || c == '\r'

/-- JS `String.prototype.trim`. -/
def strTrim (s : String) : String :=
  String.mk (((s.data.dropWhile isWs).reverse.dropWhile isWs).reverse)

-- ============================================================
-- Data model (shapes of the JSON objects the code reads)
-- ============================================================

/-- The fields of the loosely-typed `note` payload that the code reads. -/
structure NotePayload where
  title : Option String := none
  platform : Option String := none
  tags : List String := []
  play_progress : Option String := none
  url : Option String := none
  deriving Repr, DecidableEq

/-- `telemetry.gaming_session` as read by `buildInjectionText`. -/
structure GamingSession where
  status : Option String := none
  duration_minutes : Nat := 0
  deriving Repr, DecidableEq

/-- System telemetry as read by `buildInjectionText`. -/
structure Telemetry where
  memory_pressure : Bool := false
  gaming_session : Option GamingSession := none
  deriving Repr, DecidableEq

/-- One entry of `buffer_entries` as read by the cross-platform hit scan. -/
structure BufferEntry where
  title : Option String := none
  tags : List String := []
  url : Option String := none
  deriving Repr, DecidableEq

/-- The stored context entry built by the POST /inject handler.
`received_at` is the store-assigned clock reading in ms.
`injected_to_chat` is the client-side flag the visible-injection path sets
(absent on the wire, `false` until set). -/
structure Entry where
  id : String
  action : String
  formatted_text : String
  note : NotePayload
  user_comment : Option String
  timestamp : String
  received_at : Nat
  buffer_entries : List BufferEntry
  buffer_summary : String
  system_telemetry : Option Telemetry
  injected_to_chat : Bool := false
  deriving Repr, DecidableEq

/-- The server's `latestSystemNote` slot: `{ text, updated_at }`. -/
structure SystemNote where
  text : String
  updated_at : String
  deriving Repr, DecidableEq

/-- The server plugin's module-level mutable state. -/
structure ServerState where
  contextHistory : List Entry := []
  latestContext : Option Entry := none
  latestSystemNote : Option SystemNote := none
  latestTelemetry : Option Telemetry := none
  pendingTrigger : Bool := false
  deriving Repr, DecidableEq

/-- `MAX_HISTORY` from the server plugin. -/
def MAX_HISTORY : Nat := 50

-- ============================================================
-- POST /inject
-- ============================================================

/-- Request body of POST /inject (fields the handler destructures). -/
structure InjectReq where
  action : Option String := none
  formatted_text : Option String := none
  note : Option NotePayload := none
  user_comment : Option String := none
  timestamp : Option String := none
  buffer_entries : Option (List BufferEntry) := none
  buffer_summary : Option String := none
  system_telemetry : Option Telemetry := none
  deriving Repr, DecidableEq

/-- Response of POST /inject. -/
structure InjectResp where
  status : Nat
  success : Bool
  error : Option String := none
  message : Option String := none
  id : Option String := none
  deriving Repr, DecidableEq

/-- POST /inject handler. `genId` stands for the generated
`cl_${Date.now()}_${random}` id, `nowIso` for `new Date().toISOString()`,
`nowMs` for the clock reading behind `received_at`. -/
def postInject (req : InjectReq) (genId nowIso : String) (nowMs : Nat)
    (st : ServerState) : InjectResp × ServerState :=
  if !(jsTruthyStr req.action) then
    ({ status := 400, success := false, error := some "Missing: action" }, st)
  else
    let entry : Entry := {
      id := genId
      action := req.action.getD ""
      formatted_text := (jsOr req.formatted_text "")
      note := req.note.getD {}
      user_comment := match req.user_comment with
        | some s => if s == "" then none else some s
        | none => none
      timestamp := jsOr req.timestamp nowIso
      received_at := nowMs
      buffer_entries := req.buffer_entries.getD []
      buffer_summary := jsOr req.buffer_summary ""
      system_telemetry := req.system_telemetry }
    let hist := entry :: st.contextHistory
    let hist := if hist.length > MAX_HISTORY then hist.take MAX_HISTORY else hist
    ({ status := 200, success := true,
       message := some ("OK: " ++ entry.action),
       id := some genId },
     { st with latestContext := some entry, contextHistory := hist })

-- ============================================================
-- GET /context
-- ============================================================

/-- Response of GET /context; absent JSON fields are `none`. -/
structure ContextResp where
  available : Bool
  context : Option Entry := none
  age_seconds : Option Int := none
  should_trigger : Bool := false
  reason : Option String := none
  system_note : Option String := none
  system_telemetry : Option Telemetry := none
  deriving Repr, DecidableEq

/-- `parseInt(req.query.max_age) || 300`: absent/`NaN`/zero fall back to 300. -/
def effectiveMaxAge : Option Int → Int
  | none => 300
  | some v => if v = 0 then 300 else v

/-- GET /context handler.  `maxAgeParam` is the parsed `max_age` query value
(`none` = absent or non-numeric), `nowMs` the current clock in ms. -/
def getContext (maxAgeParam : Option Int) (nowMs : Nat) (st : ServerState) :
    ContextResp × ServerState :=
  let maxAge := effectiveMaxAge maxAgeParam
  match st.latestContext with
  | none => ({ available := false, context := none, should_trigger := false }, st)
  | some ctx =>
    let ageMs : Int := (nowMs : Int) - (ctx.received_at : Int)
    if ageMs > 1000 * maxAge then
      ({ available := false, context := none, should_trigger := false,
         reason := some ("expired" ++ (" (" ++ toString (jsRound ageMs) ++ "s > " ++ toString maxAge ++ "s)")) },
       st)
    else
      let shouldTrigger := st.pendingTrigger
      let st' := if st.pendingTrigger then { st with pendingTrigger := false } else st
      ({ available := true, context := some ctx,
         age_seconds := some (jsRound ageMs),
         should_trigger := shouldTrigger,
         system_note := st.latestSystemNote.map SystemNote.text,
         system_telemetry := st.latestTelemetry }, st')

-- ============================================================
-- POST /clear and POST /trigger
-- ============================================================

/-- POST /clear handler; returns the `cleared` flag and the new state. -/
def postClear (clearHistory : Bool) (st : ServerState) : Bool × ServerState :=
  let hadData := st.latestContext.isSome
  (hadData,
   { st with latestContext := none,
             contextHistory := if clearHistory then [] else st.contextHistory })

/-- POST /trigger handler. -/
def postTrigger (st : ServerState) : ServerState :=
  { st with pendingTrigger := true }

-- ============================================================
-- UI extension: settings and client state
-- ============================================================

/-- `DEFAULT_SETTINGS` of the UI extension (shape of the settings object). -/
structure Settings where
  enabled : Bool := true
  inject_position : String := "end"
  max_context_age : Nat := 300
  poll_interval : Nat := 3000
  show_notification : Bool := true
  injection_style : String := "formatted"
  context_max_length : Nat := 1200
  backend_url : String := "http://localhost:8765"
  deriving Repr, DecidableEq

/-- The literal `DEFAULT_SETTINGS`. -/
def DEFAULT_SETTINGS : Settings := {}

/-- The UI extension's module-level mutable state (the slots the relay logic
reads and writes; timer handles and DOM state are outside the model). -/
structure ClientState where
  latestContext : Option Entry := none
  lastContextId : Option String := none
  latestSystemNote : Option String := none
  latestTelemetry : Option Telemetry := none
  deriving Repr, DecidableEq

-- ============================================================
-- fetchLatestContext (core state transition of one poll tick)
-- ============================================================

/-- The `else` branch of `fetchLatestContext` (response not available):
drop the cached event, then apply system-note and telemetry updates from the
response when present. -/
def pollUnavailableStep (data : ContextResp) (st : ClientState) : ClientState :=
  let st := if st.latestContext.isSome then { st with latestContext := none } else st
  let st := if jsTruthyStr data.system_note then { st with latestSystemNote := data.system_note } else st
  if data.system_telemetry.isSome then { st with latestTelemetry := data.system_telemetry } else st

/-- State transition of one poll tick of `fetchLatestContext`, given the
decoded GET /context response.  Returns the new client state and the
function's return value.  (DOM side effects — notification, status UI, the
visible-injection call — are not part of the state model.) -/
def fetchLatestContext (data : ContextResp) (st : ClientState) :
    ClientState × Option Entry :=
  let st1 := if data.system_telemetry.isSome then { st with latestTelemetry := data.system_telemetry } else st
  match data.context with
  | some ctx =>
    if data.available then
      let isNew := !(some ctx.id == st1.lastContextId)
      let st2 := if isNew then { st1 with lastContextId := some ctx.id, latestContext := some ctx } else st1
      (st2, some ctx)
    else (pollUnavailableStep data st1, none)
  | none => (pollUnavailableStep data st1, none)

-- ============================================================
-- buildInjectionText
-- ============================================================

/-- Literal `\x7b\x7buser\x7d\x7d` placeholder from the narrative templates. -/
def uTag : String := "\x7b\x7buser\x7d\x7d"

/-- Literal `\x7b\x7bchar\x7d\x7d` placeholder from the narrative templates. -/
def cTag : String := "\x7b\x7bchar\x7d\x7d"

/-- Separator class of the title-keyword split `[\s,，.。-]+`. -/
def sepChars : List Char := [' ', '\t', '\n', '\r', ',', '，', '.', '。', '-']

/-- `(note.title || '').split(/[\s,，.。-]+/).filter(w => w.length > 1)`. -/
def titleKeywordsOf (title : String) : List String :=
  (strSplitBy (fun c => sepChars.contains c) title).filter (fun w => w.length > 1)

/-- Insertion-ordered de-duplication, modelling a JS `Set` built by insertion. -/
def dedupAppend (acc : List String) (t : String) : List String :=
  if t ∈ acc then acc else acc ++ [t]

/-- `currentTags`: a `Set` seeded with `note.tags`, then each title keyword added. -/
def currentTagsOf (noteTags titleKeywords : List String) : List String :=
  (noteTags ++ titleKeywords).foldl dedupAppend []

/-- Platform classification of a buffer entry by its URL. -/
def entryPlatformOf (url : String) : String :=
  if strIncludes url "bilibili.com" then "bilibili"
  else if strIncludes url "xiaohongshu.com" then "xiaohongshu"
  else "unknown"

/-- The cross-platform overlap scan over `buffer_entries`. -/
def crossPlatformHits (bufferEntries : List BufferEntry) (currentDomain : String)
    (currentTags titleKeywords : List String) : List BufferEntry :=
  bufferEntries.filter (fun entry =>
    let entryUrl := entry.url.getD ""
    let entryPlatform := entryPlatformOf entryUrl
    if entryPlatform ≠ "unknown" ∧ entryPlatform ≠ currentDomain then
      (entry.tags.any (fun t => currentTags.contains t)) ||
      (titleKeywords.any (fun w => strIncludes (entry.title.getD "") w))
    else false)

/-- Vibe-check scene-setting clause. -/
def vibeIntroOf (platform : String) (isLateNight isBingeWatching : Bool) (hour : Nat)
    (action : String) (noteTitle userComment : Option String) : String :=
  if platform == "bilibili" then
    if isLateNight then
      "（夜色已深，屋里只有屏幕的微光照在 " ++ uTag ++ " 脸上... 他似乎并无睡意，正在 B 站上刷着视频...）"
    else if isBingeWatching then
      "（" ++ uTag ++ " 看起来非常投入，已经在屏幕前连续看了好一会儿 B 站了，似乎完全沉浸在了内容里...）"
    else
      "（此时，" ++ uTag ++ " 正在电脑前刷 B 站，他把耳机分了你一半，屏幕上正在播放：" ++ jsOr noteTitle "视频" ++ "...）"
  else
    if isLateNight then
      "（凌晨 " ++ toString hour ++ " 点了，" ++ uTag ++ " 还在刷着手机，屏幕的光映在他略显疲惫但兴奋的脸上...）"
    else if isBingeWatching then
      "（" ++ uTag ++ " 的手指在屏幕上快速滑动，看起来正在高强度地摄入信息，试图寻找某种共鸣...）"
    else if action == "like" then
      "（" ++ uTag ++ " 把手机屏幕侧过来给你看，上面是他刚刚点赞的一篇笔记...）"
    else if action == "comment" then
      "（" ++ uTag ++ " 指着屏幕上一条评论说到：“" ++ jsOr userComment "" ++ "”，然后期待地看着你...）"
    else if action == "share" then
      "（" ++ uTag ++ " 转发了一篇笔记给你：“快看这个！”...）"
    else
      "（" ++ uTag ++ " 把手机屏幕展示给你看...）"

/-- `parse` inside the play-progress observer: `parseInt(p[0])*60 + parseInt(p[1])`
on a `mm:ss` token; `none` models a `NaN` result. -/
def parseTimePart (t : String) : Option Nat :=
  let p := strSplitBy (fun c => c == ':') t
  match jsParseInt (p.getD 0 ""), jsParseInt (p.getD 1 "") with
  | some a, some b => some (a * 60 + b)
  | _, _ => none

/-- Early-progress quip. -/
def pctLowStr : String :=
  "\n（但进度条才刚开始走... 这就投币了？" ++ cTag ++ " 挑了挑眉。）"

/-- Completed-progress quip. -/
def pctHighStr : String :=
  "\n（" ++ cTag ++ " 注意到进度条已经走到了最后，看来他是真的看进去了。）"

/-- The `try { ... play_progress ... } catch` block: percentage thresholds with
JS float semantics (`x/0 = Infinity`, `0/0 = NaN`, `NaN` comparisons false,
destructuring/parse errors swallowed by the catch). -/
def progressObservation (pp : String) : String :=
  let parts := strSplitBy (fun c => c == '/') pp
  match parts with
  | _ :: _ :: _ =>
    match parseTimePart (parts.getD 0 ""), parseTimePart (parts.getD 1 "") with
    | some curr, some total =>
      if total == 0 then (if curr == 0 then "" else pctHighStr)
      else if curr * 100 < total * 5 then pctLowStr
      else if curr * 100 > total * 90 then pctHighStr
      else ""
    | _, _ => ""
  | _ => ""

/-- Fine-grained observation clause. -/
def detailObservationOf (platform action : String) (isBingeWatching : Bool)
    (playProgress : Option String) : String :=
  if platform == "bilibili" then
    let base :=
      if action == "coin" then
        if isBingeWatching then
          "（他划走了那么多，唯独在这个视频前停下并投了币... " ++ cTag ++ " 注意到了这个细节。）"
        else
          "（" ++ cTag ++ " 看到他毫不犹豫地投了币，眼神里带着认可。）"
      else ""
    if jsTruthyStr playProgress then base ++ progressObservation (playProgress.getD "") else base
  else
    if action == "like" && isBingeWatching then
      "（在连续快速的刷屏后，他终于在这个内容上停留了片刻并点了赞。）"
    else ""

/-- Draft instruction clause (present when there is a cross-platform hit). -/
def draftInstructionStr : String :=
  "\n[系统提示：检测到跨平台关联。若想帮助用户互动，请在回复末尾以此格式拟定评论草稿：(拟稿: 你的评论内容)]"

/-- Sensory-perception clause derived from system telemetry. -/
def sensoryObservationOf (tel : Option Telemetry) (platform : String) : String :=
  match tel with
  | none => ""
  | some t =>
    let s := if t.memory_pressure then
        "（主机箱的风扇声似乎比平时喧嚣了一些，空气里隐约透着一丝电子元件全速运转的热度...）\n"
      else ""
    match t.gaming_session with
    | some g =>
      if g.status == some "cooldown" then
        if g.duration_minutes > 30 then
          s ++ "（" ++ cTag ++ " 注意到 " ++ uTag ++ " 揉了揉有些发酸的手腕，眼神里透着一场漫长恶战后的疲惫与满足...）\n"
        else
          s ++ "（" ++ uTag ++ " 刚刚结束了一场短暂的战斗，看起来意犹未尽...）\n"
      else if g.status == some "gaming" then
        if platform ≠ "bilibili" then
          s ++ "（电脑后台似乎运行着大型程序，" ++ uTag ++ " 的注意力显得有些分散...）\n"
        else s
      else s
    | none => s

/-- The trimmed narrative-body template literal. -/
def narrativeBodyOf (vibeIntro sensoryObservation internalMonologue detailObservation
    draftInstruction : String) : String :=
  strTrim ("\n" ++ vibeIntro ++ "\n" ++ sensoryObservation ++ "\n" ++ internalMonologue ++
    "\n" ++ detailObservation ++ "\n（空气里有一瞬间的安静。）" ++ draftInstruction)

/-- The narrative body computed by `buildInjectionText` after its early
return: the vibe intro, internal monologue, detail observation, draft
instruction and sensory observation, composed through the trimmed template. -/
def injectionNarrative (ctx : Entry) (hour : Nat)
    (latestTelemetry : Option Telemetry) : String :=
  let action := ctx.action
    let note := ctx.note
    let platform := jsOr note.platform "xiaohongshu"
    let bufferEntries := ctx.buffer_entries
    let isLateNight := decide (1 ≤ hour ∧ hour ≤ 5)
    let isBingeWatching := decide (bufferEntries.length ≥ 4)
    let vibeIntro := vibeIntroOf platform isLateNight isBingeWatching hour action note.title ctx.user_comment
    let currentDomain := if platform == "bilibili" then "bilibili" else "xiaohongshu"
    let titleKeywords := titleKeywordsOf (note.title.getD "")
    let currentTags := currentTagsOf note.tags titleKeywords
    let hits := crossPlatformHits bufferEntries currentDomain currentTags titleKeywords
    let internalMonologue :=
      if hits.length > 0 then
        "（" ++ cTag ++ " 隐约觉得，他最近好像对“" ++ jsOr currentTags.head? "这个话题" ++ "”格外上心，这种似曾相识的感觉...）"
      else ""
    let detailObservation := detailObservationOf platform action isBingeWatching note.play_progress
    let draftInstruction := if hits.length > 0 then draftInstructionStr else ""
    let sensoryObservation := sensoryObservationOf latestTelemetry platform
    narrativeBodyOf vibeIntro sensoryObservation internalMonologue detailObservation
      draftInstruction

/-- `buildInjectionText(ctx, settings)`.  `hour` stands for
`new Date().getHours()` and `latestTelemetry` for the module-level slot.
Note the `settings` parameter: the body never reads it (in particular it never
applies `context_max_length`). -/
def buildInjectionText (ctx : Entry) (settings : Settings) (hour : Nat)
    (latestTelemetry : Option Telemetry) : Option String :=
  let formattedText := ctx.formatted_text
  if formattedText == "" then none
  else some (formattedText ++ "\n\n" ++ injectionNarrative ctx hour latestTelemetry)

-- ============================================================
-- The generate interceptor
-- ============================================================

/-- `extra` tag object of a chat message (the fields the interceptor reads/writes). -/
structure MsgExtra where
  type : Option String := none
  companion_link_system_note : Bool := false
  companion_link : Bool := false
  cl_action : Option String := none
  cl_context_id : Option String := none
  deriving Repr, DecidableEq

/-- A chat message as the interceptor sees it. -/
structure Message where
  role : Option String := none
  content : Option String := none
  is_user : Bool := false
  is_system : Bool := false
  send_date : Nat := 0
  mes : String := ""
  extra : Option MsgExtra := none
  deriving Repr, DecidableEq

/-- `m.extra?.companion_link_system_note === true`. -/
def isAmbientMarker (m : Message) : Bool :=
  match m.extra with
  | some e => e.companion_link_system_note
  | none => false

/-- Is `m` an event message of this system carrying context id `cid`? -/
def isEventMarkerFor (cid : String) (m : Message) : Bool :=
  match m.extra with
  | some e => e.companion_link && (e.cl_context_id == some cid)
  | none => false

/-- The ambient system-note message the interceptor builds. -/
def systemNoteMsg (noteText : String) (now : Nat) : Message :=
  { role := some "system", content := some noteText, is_user := false, is_system := true,
    send_date := now, mes := noteText,
    extra := some { type := some "narrator", companion_link_system_note := true } }

/-- The event message the interceptor builds (user-voice framing). -/
def eventMsg (ctx : Entry) (injectionText : String) (now : Nat) : Message :=
  { is_user := true, is_system := false, send_date := now, mes := injectionText,
    extra := some { type := some "narrator", companion_link := true,
                    cl_action := some ctx.action, cl_context_id := some ctx.id } }

/-- JS `Array.prototype.findIndex` with a boolean predicate. -/
def jsFindIndex (p : Message → Bool) : List Message → Option Nat
  | [] => none
  | m :: tl => if p m then some 0 else (jsFindIndex p tl).map (· + 1)

/-- JS `chat.splice(pos, 0, msg)` (position clamped to the length, as in JS). -/
def jsSpliceInsert (pos : Nat) (a : Message) (l : List Message) : List Message :=
  l.take pos ++ a :: l.drop pos

/-- Step 3 of the interceptor: the ambient-note upsert. -/
def ambientStep (note : Option String) (now : Nat) (chat : List Message) : List Message :=
  if jsTruthyStr note then
    let msg := systemNoteMsg (note.getD "") now
    match jsFindIndex isAmbientMarker chat with
    | some i => chat.set i msg
    | none => jsSpliceInsert (min 1 chat.length) msg chat
  else chat

/-- Steps 4–7 of the interceptor: event-injection eligibility, staleness,
synthesis and positional insert. -/
def eventStep (settings : Settings) (latestContext : Option Entry)
    (latestTelemetry : Option Telemetry) (now hour : Nat) (chat : List Message) :
    List Message :=
  match latestContext with
  | none => chat
  | some ctx =>
    if ctx.injected_to_chat then chat
    else
      let ageMs : Int := (now : Int) - (ctx.received_at : Int)
      if ageMs > (settings.max_context_age : Int) * 1000 then chat
      else
        match buildInjectionText ctx settings hour latestTelemetry with
        | none => chat
        | some injectionText =>
          if injectionText == "" then chat
          else
            let m := eventMsg ctx injectionText now
            if settings.inject_position == "start" then m :: chat
            else if settings.inject_position == "end" then chat ++ [m]
            else if chat.length > 0 then jsSpliceInsert (chat.length - 1) m chat
            else chat ++ [m]

/-- `globalThis.companionLinkInterceptor(chat, contextSize, abort, type)` as a
function from the old chat array to the new one.  `gtype` is the generation
type, `st` the extension's cached state, `now`/`hour` the clock readings. -/
def companionLinkInterceptor (gtype : String) (settings : Settings) (st : ClientState)
    (now hour : Nat) (chat : List Message) : List Message :=
  if gtype == "quiet" then chat
  else if !settings.enabled then chat
  else
    let chat1 := ambientStep st.latestSystemNote now chat
    eventStep settings st.latestContext st.latestTelemetry now hour chat1

-- ============================================================
-- Helper lemmas about GET /context
-- ============================================================

theorem getContext_available_none (p : Option Int) (n : Nat) (st : ServerState)
    (h : st.latestContext = none) : (getContext p n st).1.available = false := by
  simp [getContext, h]

theorem getContext_available_some (p : Option Int) (n : Nat) (st : ServerState) (e : Entry)
    (h : st.latestContext = some e) :
    (getContext p n st).1.available
      = !decide ((n : Int) - (e.received_at : Int) > 1000 * effectiveMaxAge p) := by
  simp only [getContext, h]
  split
  · next hgt => simp [hgt]
  · next hle => simp [hle]

theorem getContext_shouldTrigger (p : Option Int) (n : Nat) (st : ServerState) :
    (getContext p n st).1.should_trigger
      = ((getContext p n st).1.available && st.pendingTrigger) := by
  simp only [getContext]
  cases h : st.latestContext with
  | none => rfl
  | some e =>
    simp only []
    split
    · rfl
    · split <;> simp_all

theorem getContext_pending (p : Option Int) (n : Nat) (st : ServerState) :
    (getContext p n st).2.pendingTrigger
      = (!(getContext p n st).1.available && st.pendingTrigger) := by
  simp only [getContext]
  cases h : st.latestContext with
  | none => simp
  | some e =>
    simp only []
    split
    · simp
    · split <;> simp_all

theorem getContext_reason_expired (p : Option Int) (n : Nat) (st : ServerState) (e : Entry)
    (h : st.latestContext = some e)
    (hgt : (n : Int) - (e.received_at : Int) > 1000 * effectiveMaxAge p) :
    ∃ t, (getContext p n st).1.reason = some ("expired" ++ t) := by
  refine ⟨" (" ++ toString (jsRound ((n : Int) - (e.received_at : Int))) ++ "s > " ++
    toString (effectiveMaxAge p) ++ "s)", ?_⟩
  simp only [getContext, h]
  rw [if_pos hgt]

-- ============================================================
-- Concrete fixtures
-- ============================================================

/-- A minimal concrete stored entry. -/
def e0 : Entry :=
  { id := "cl_1", action := "like", formatted_text := "txt", note := {},
    user_comment := none, timestamp := "t0", received_at := 0,
    buffer_entries := [], buffer_summary := "", system_telemetry := none }

-- ============================================================
-- C1 — trigger flag read/reset on retrieval
-- ============================================================

/-- C1 counterexample: the claim that every GET /context call resets the
pending trigger flag is false — a call that finds no stored event, and a call
that finds the latest event expired, both leave the flag set. -/
theorem c1_counterexample :
    ((getContext none 0 { pendingTrigger := true }).2.pendingTrigger = true) ∧
    ((getContext none 400000 { latestContext := some e0, pendingTrigger := true }).2.pendingTrigger
      = true) := by
  constructor <;> rfl

/-- C1 (amended): GET /context reads and resets the trigger flag only on the
successful (available, non-expired) path: `should_trigger` equals
`available && pendingTrigger`, the post-state flag equals
`!available && pendingTrigger` (so a no-event or expired poll leaves the flag
pending), and a set flag is delivered at most once — a second poll after a
delivering poll reports `should_trigger = false`. -/
theorem c1_trigger_reset_on_available_only (st : ServerState) (p q : Option Int)
    (n m : Nat) :
    ((getContext p n st).1.should_trigger
        = ((getContext p n st).1.available && st.pendingTrigger)) ∧
    ((getContext p n st).2.pendingTrigger
        = (!(getContext p n st).1.available && st.pendingTrigger)) ∧
    ((getContext q m (getContext p n st).2).1.should_trigger
        = ((getContext q m (getContext p n st).2).1.available &&
            (!(getContext p n st).1.available && st.pendingTrigger))) := by
  refine ⟨getContext_shouldTrigger p n st, getContext_pending p n st, ?_⟩
  rw [getContext_shouldTrigger q m ((getContext p n st).2), getContext_pending p n st]

-- ============================================================
-- C2 — ambient note relay
-- ============================================================

/-- C2: evaluation of the code at the failing inputs.  A GET /context call
that finds no stored event omits the ambient note from the response even
though the store holds one; and a poll tick whose response is available and
carries a `system_note` leaves the client's cached ambient note unchanged.
Together the ambient note is surfaced only on available responses and applied
only on unavailable ticks, contradicting the claim on both halves. -/
theorem c2_ambient_relay_divergence :
    ((getContext none 0
        { latestSystemNote := some { text := "N", updated_at := "t" } }).1.system_note
      = none) ∧
    ((fetchLatestContext
        { available := true, context := some e0, should_trigger := false,
          system_note := some "N" }
        { latestSystemNote := some "old" }).1.latestSystemNote = some "old") := by
  constructor <;> rfl

-- ============================================================
-- C4 — ingestion validation
-- ============================================================

/-- C4 counterexample: an ingestion request whose `formatted_text` and `note`
are both absent but whose `action` is present does not fail — it succeeds and
mutates the store. -/
theorem c4_counterexample :
    ((postInject { action := some "like" } "cl_1" "t0" 0 {}).1.success = true) ∧
    ((postInject { action := some "like" } "cl_1" "t0" 0 {}).2 ≠ ({} : ServerState)) := by
  constructor
  · rfl
  · decide

/-- C4 (amended): the POST /inject handler validates only that `action` is
present and non-empty; a request with `action` succeeds even when both
`formatted_text` and `note` are absent (they default to empty), and a rejected
request (missing `action`) gets a 400 validation error and leaves the store
entirely unchanged. -/
theorem c4_inject_validation (req : InjectReq) (gid iso : String) (n : Nat)
    (st : ServerState) :
    (jsTruthyStr req.action = false →
      (postInject req gid iso n st).1.success = false ∧
      (postInject req gid iso n st).1.status = 400 ∧
      (postInject req gid iso n st).2 = st) ∧
    (jsTruthyStr req.action = true →
      (postInject req gid iso n st).1.success = true ∧
      (postInject req gid iso n st).1.status = 200) := by
  constructor
  · intro h
    simp [postInject, h]
  · intro h
    simp [postInject, h]

/-- C4 witness: instantiation of the amended theorem at concrete inputs. -/
theorem c4_inject_validation_witness :
    ((postInject {} "g" "t" 0 {}).1.success = false ∧
      (postInject {} "g" "t" 0 {}).2 = ({} : ServerState)) ∧
    (postInject { action := some "like" } "g" "t" 0 {}).1.success = true := by
  refine ⟨⟨?_, ?_⟩, ?_⟩
  · exact ((c4_inject_validation {} "g" "t" 0 {}).1 (by decide)).1
  · exact ((c4_inject_validation {} "g" "t" 0 {}).1 (by decide)).2.2
  · exact ((c4_inject_validation { action := some "like" } "g" "t" 0 {}).2 (by decide)).1

-- ============================================================
-- C5 — staleness of GET /context
-- ============================================================

/-- C5: GET /context is unavailable iff no event is stored or the latest
event's age strictly exceeds the effective max age (all in exact ms
arithmetic); the boundary age `= maxAge` is available (inclusive); and an
expired result carries a reason string starting with "expired". -/
theorem c5_latest_staleness (p : Option Int) (n : Nat) (st : ServerState) :
    ((getContext p n st).1.available = false ↔
      st.latestContext = none ∨
        ∃ e, st.latestContext = some e ∧
          (n : Int) - (e.received_at : Int) > 1000 * effectiveMaxAge p) ∧
    (∀ e, st.latestContext = some e →
      (n : Int) - (e.received_at : Int) = 1000 * effectiveMaxAge p →
      (getContext p n st).1.available = true) ∧
    (∀ e, st.latestContext = some e →
      (n : Int) - (e.received_at : Int) > 1000 * effectiveMaxAge p →
      ∃ t, (getContext p n st).1.reason = some ("expired" ++ t)) := by
  refine ⟨?_, ?_, ?_⟩
  · cases h : st.latestContext with
    | none =>
      rw [getContext_available_none p n st h]
      simp
    | some e =>
      rw [getContext_available_some p n st e h]
      constructor
      · intro hb
        right
        refine ⟨e, rfl, ?_⟩
        by_contra hle
        simp [hle] at hb
      · rintro (hno | ⟨e', he', hgt⟩)
        · exact Option.noConfusion hno
        · obtain rfl : e' = e := by injection he' with hh; exact hh.symm
          simp [hgt]
  · intro e he heq
    rw [getContext_available_some p n st e he, heq]
    simp
  · intro e he hgt
    exact getContext_reason_expired p n st e he hgt

/-- C5 witness: with an event received at clock 0 and default max age 300 s,
a poll at exactly 300 000 ms is available (inclusive boundary) and a poll at
300 001 ms is expired with a reason starting with "expired". -/
theorem c5_latest_staleness_witness :
    (getContext none 300000 { latestContext := some e0 }).1.available = true ∧
    ∃ t, (getContext none 300001 { latestContext := some e0 }).1.reason
      = some ("expired" ++ t) :=
  ⟨(c5_latest_staleness none 300000 { latestContext := some e0 }).2.1 e0 rfl (by decide),
   (c5_latest_staleness none 300001 { latestContext := some e0 }).2.2 e0 rfl (by decide)⟩

-- ============================================================
-- C10 — frame of POST /clear
-- ============================================================

/-- C10: POST /clear drops only the latest event (and the history ring when
`clear_history` is set): the pending trigger flag, the ambient note and the
telemetry slot are unchanged; consequently a trigger pending before the clear
is still delivered by a later fresh retrieval (after a new ingestion). -/
theorem c10_clear_frame (b : Bool) (st : ServerState) :
    (postClear b st).2.pendingTrigger = st.pendingTrigger ∧
    (postClear b st).2.latestSystemNote = st.latestSystemNote ∧
    (postClear b st).2.latestTelemetry = st.latestTelemetry ∧
    (postClear b st).2.latestContext = none ∧
    (postClear b st).2.contextHistory = (if b then [] else st.contextHistory) ∧
    (∀ (req : InjectReq) (gid iso : String) (n₁ n₂ : Nat) (p : Option Int),
      jsTruthyStr req.action = true →
      (n₂ : Int) - (n₁ : Int) ≤ 1000 * effectiveMaxAge p →
      (getContext p n₂ (postInject req gid iso n₁ (postClear b st).2).2).1.should_trigger
        = st.pendingTrigger) := by
  refine ⟨rfl, rfl, rfl, rfl, rfl, ?_⟩
  intro req gid iso n₁ n₂ p hact hfresh
  rw [getContext_shouldTrigger]
  have hlc : (postInject req gid iso n₁ (postClear b st).2).2.latestContext.isSome := by
    simp [postInject, hact]
  rcases hsome : (postInject req gid iso n₁ (postClear b st).2).2.latestContext with _ | e
  · rw [hsome] at hlc
    simp at hlc
  · have hrec : e.received_at = n₁ := by
      simp [postInject, hact] at hsome
      rw [← hsome]
    have hpend : (postInject req gid iso n₁ (postClear b st).2).2.pendingTrigger
        = st.pendingTrigger := by
      simp [postInject, hact, postClear]
    rw [getContext_available_some p n₂ _ e hsome, hrec, hpend]
    have : ¬((n₂ : Int) - (n₁ : Int) > 1000 * effectiveMaxAge p) := by
      exact not_lt.mpr hfresh
    simp [this]

/-- C10 witness: a pending trigger survives a full clear and is delivered by
the fresh poll that follows a new ingestion. -/
theorem c10_clear_frame_witness :
    (postClear true { pendingTrigger := true }).2.pendingTrigger = true ∧
    (getContext none 1000
        (postInject { action := some "like" } "g" "t" 500
          (postClear true { pendingTrigger := true }).2).2).1.should_trigger = true :=
  ⟨(c10_clear_frame true { pendingTrigger := true }).1,
   (c10_clear_frame true { pendingTrigger := true }).2.2.2.2.2
     { action := some "like" } "g" "t" 500 1000 none (by decide) (by decide)⟩

-- ============================================================
-- Helper lemmas about the interceptor's list operations
-- ============================================================

theorem jsFindIndex_eq_none_iff (p : Message → Bool) (l : List Message) :
    jsFindIndex p l = none ↔ l.countP p = 0 := by
  induction l with
  | nil => simp [jsFindIndex]
  | cons m tl ih =>
    cases hm : p m with
    | true => simp [jsFindIndex, hm, List.countP_cons]
    | false => simp [jsFindIndex, hm, List.countP_cons, ih]

theorem jsFindIndex_some_decomp (p : Message → Bool) (l : List Message) (i : Nat)
    (h : jsFindIndex p l = some i) :
    ∃ l₁ x l₂, l = l₁ ++ x :: l₂ ∧ l₁.length = i ∧ p x = true := by
  induction l generalizing i with
  | nil => simp [jsFindIndex] at h
  | cons m tl ih =>
    by_cases hm : p m = true
    · simp [jsFindIndex, hm] at h
      exact ⟨[], m, tl, rfl, by simp [h], hm⟩
    · simp only [Bool.not_eq_true] at hm
      simp [jsFindIndex, hm] at h
      obtain ⟨j, hj, hij⟩ := h
      obtain ⟨l₁, x, l₂, hl, hlen, hx⟩ := ih j hj
      exact ⟨m :: l₁, x, l₂, by simp [hl], by simp [hlen, hij], hx⟩

theorem set_append_length (l₁ : List Message) (x a : Message) (l₂ : List Message) :
    (l₁ ++ x :: l₂).set l₁.length a = l₁ ++ a :: l₂ := by
  induction l₁ with
  | nil => rfl
  | cons h t ih =>
    show h :: ((t ++ x :: l₂).set t.length a) = h :: (t ++ a :: l₂)
    rw [ih]

theorem countP_jsSpliceInsert (p : Message → Bool) (pos : Nat) (a : Message)
    (l : List Message) :
    (jsSpliceInsert pos a l).countP p = l.countP p + (if p a then 1 else 0) := by
  rw [jsSpliceInsert, List.countP_append, List.countP_cons]
  conv_rhs => rw [← List.take_append_drop pos l, List.countP_append]
  omega

theorem length_jsSpliceInsert (pos : Nat) (a : Message) (l : List Message) :
    (jsSpliceInsert pos a l).length = l.length + 1 := by
  simp [jsSpliceInsert]
  omega

theorem sublist_jsSpliceInsert (pos : Nat) (a : Message) (l : List Message) :
    List.Sublist l (jsSpliceInsert pos a l) := by
  conv_lhs => rw [← List.take_append_drop pos l]
  exact (List.sublist_cons_self a _).append_left _

/-- The injected ambient message is ambient-marked. -/
theorem isAmbientMarker_systemNoteMsg (s : String) (now : Nat) :
    isAmbientMarker (systemNoteMsg s now) = true := rfl

/-- The injected ambient message is never event-marked. -/
theorem isEventMarkerFor_systemNoteMsg (cid s : String) (now : Nat) :
    isEventMarkerFor cid (systemNoteMsg s now) = false := rfl

/-- Exhaustive description of the ambient-note upsert: either the note is
falsy and the chat is untouched, or no ambient-marked entry exists and the
ambient message is spliced in near the head, or the first ambient-marked
entry is replaced in place. -/
theorem ambientStep_cases (note : Option String) (now : Nat) (chat : List Message) :
    (jsTruthyStr note = false ∧ ambientStep note now chat = chat) ∨
    (jsTruthyStr note = true ∧ chat.countP isAmbientMarker = 0 ∧
      ambientStep note now chat
        = jsSpliceInsert (min 1 chat.length) (systemNoteMsg (note.getD "") now) chat) ∨
    (jsTruthyStr note = true ∧ ∃ l₁ x l₂,
      chat = l₁ ++ x :: l₂ ∧ isAmbientMarker x = true ∧
      ambientStep note now chat = l₁ ++ systemNoteMsg (note.getD "") now :: l₂) := by
  by_cases h : jsTruthyStr note = true
  · cases hf : jsFindIndex isAmbientMarker chat with
    | none =>
      refine Or.inr (Or.inl ⟨h, (jsFindIndex_eq_none_iff _ _).mp hf, ?_⟩)
      simp [ambientStep, h, hf]
    | some i =>
      obtain ⟨l₁, x, l₂, hl, hlen, hx⟩ := jsFindIndex_some_decomp _ _ _ hf
      refine Or.inr (Or.inr ⟨h, l₁, x, l₂, hl, hx, ?_⟩)
      simp only [ambientStep, h, if_true, hf]
      rw [hl, ← hlen, set_append_length]
  · simp only [Bool.not_eq_true] at h
    exact Or.inl ⟨h, by simp [ambientStep, h]⟩

theorem ambientStep_countP_marker (note : Option String) (now : Nat)
    (chat : List Message) (h : jsTruthyStr note = true) :
    (ambientStep note now chat).countP isAmbientMarker
      = max 1 (chat.countP isAmbientMarker) := by
  rcases ambientStep_cases note now chat with ⟨hf, _⟩ | ⟨_, hc, he⟩ | ⟨_, l₁, x, l₂, hl, hx, he⟩
  · rw [hf] at h
    exact absurd h (by simp)
  · rw [he, countP_jsSpliceInsert, hc, isAmbientMarker_systemNoteMsg]
    simp
  · rw [he, hl]
    simp [List.countP_append, List.countP_cons, hx, isAmbientMarker_systemNoteMsg]
    omega

theorem ambientStep_length_of_marker (note : Option String) (now : Nat)
    (chat : List Message) (hc : chat.countP isAmbientMarker ≠ 0) :
    (ambientStep note now chat).length = chat.length := by
  rcases ambientStep_cases note now chat with ⟨_, he⟩ | ⟨_, hc0, _⟩ | ⟨_, l₁, x, l₂, hl, _, he⟩
  · rw [he]
  · exact absurd hc0 hc
  · rw [he, hl]
    simp

theorem ambientStep_length_ge (note : Option String) (now : Nat) (chat : List Message) :
    chat.length ≤ (ambientStep note now chat).length := by
  rcases ambientStep_cases note now chat with ⟨_, he⟩ | ⟨_, _, he⟩ | ⟨_, l₁, x, l₂, hl, _, he⟩
  · rw [he]
  · rw [he, length_jsSpliceInsert]
    omega
  · rw [he, hl]
    simp

theorem ambientStep_filter_nonmarker (note : Option String) (now : Nat)
    (chat : List Message) :
    (ambientStep note now chat).filter (fun m => !isAmbientMarker m)
      = chat.filter (fun m => !isAmbientMarker m) := by
  rcases ambientStep_cases note now chat with ⟨_, he⟩ | ⟨_, _, he⟩ | ⟨_, l₁, x, l₂, hl, hx, he⟩
  · rw [he]
  · rw [he]
    simp only [jsSpliceInsert, List.filter_append, List.filter_cons,
      isAmbientMarker_systemNoteMsg, Bool.not_true, Bool.false_eq_true, if_false]
    rw [← List.filter_append, List.take_append_drop]
  · rw [he, hl]
    simp [List.filter_append, hx, isAmbientMarker_systemNoteMsg]

theorem ambientStep_filter_event (cid : String) (note : Option String) (now : Nat)
    (chat : List Message) :
    List.Sublist ((ambientStep note now chat).filter (isEventMarkerFor cid))
      (chat.filter (isEventMarkerFor cid)) := by
  rcases ambientStep_cases note now chat with ⟨_, he⟩ | ⟨_, _, he⟩ | ⟨_, l₁, x, l₂, hl, hx, he⟩
  · rw [he]
  · rw [he]
    simp only [jsSpliceInsert, List.filter_append, List.filter_cons,
      isEventMarkerFor_systemNoteMsg, Bool.false_eq_true, if_false]
    rw [← List.filter_append, List.take_append_drop]
  · rw [he, hl]
    simp only [List.filter_append, List.filter_cons, isEventMarkerFor_systemNoteMsg,
      Bool.false_eq_true, if_false]
    refine List.Sublist.append_left ?_ _
    split
    · exact List.sublist_cons_self _ _
    · exact List.Sublist.refl _

theorem eventStep_sublist (settings : Settings) (lc : Option Entry)
    (tel : Option Telemetry) (now hour : Nat) (chat : List Message) :
    List.Sublist chat (eventStep settings lc tel now hour chat) := by
  unfold eventStep
  cases lc with
  | none => exact List.Sublist.refl _
  | some ctx =>
    simp only []
    split
    · exact List.Sublist.refl _
    · split
      · exact List.Sublist.refl _
      · split
        · exact List.Sublist.refl _
        · split
          · exact List.Sublist.refl _
          · split
            · exact List.sublist_cons_self _ _
            · split
              · exact List.sublist_append_left _ _
              · split
                · exact sublist_jsSpliceInsert _ _ _
                · exact List.sublist_append_left _ _

theorem eventStep_length_ge (settings : Settings) (lc : Option Entry)
    (tel : Option Telemetry) (now hour : Nat) (chat : List Message) :
    chat.length ≤ (eventStep settings lc tel now hour chat).length :=
  (eventStep_sublist settings lc tel now hour chat).length_le

-- ============================================================
-- C3 — no double injection once the visible path has run
-- ============================================================

/-- C3: once the visible-injection path has marked the cached event as
injected (`injected_to_chat = true`), an invocation of the generate
interceptor inserts no event message carrying that event's id: the event
messages for that id in the output chat are a subsequence of those already in
the input chat. -/
theorem c3_no_double_injection (gtype : String) (settings : Settings) (st : ClientState)
    (now hour : Nat) (chat : List Message) (ctx : Entry)
    (hctx : st.latestContext = some ctx) (hflag : ctx.injected_to_chat = true) :
    List.Sublist
      ((companionLinkInterceptor gtype settings st now hour chat).filter
        (isEventMarkerFor ctx.id))
      (chat.filter (isEventMarkerFor ctx.id)) := by
  unfold companionLinkInterceptor
  split
  · exact List.Sublist.refl _
  · split
    · exact List.Sublist.refl _
    · have hev : eventStep settings st.latestContext st.latestTelemetry now hour
          (ambientStep st.latestSystemNote now chat)
          = ambientStep st.latestSystemNote now chat := by
        simp [eventStep, hctx, hflag]
      rw [hev]
      exact ambientStep_filter_event ctx.id st.latestSystemNote now chat

/-- A concrete cached event already injected by the visible path. -/
def e3 : Entry := { e0 with injected_to_chat := true }

/-- C3 witness: instantiation at a concrete state and an empty chat. -/
theorem c3_no_double_injection_witness :
    List.Sublist
      ((companionLinkInterceptor "normal" DEFAULT_SETTINGS
          { latestContext := some e3, latestSystemNote := some "note" } 0 12
          ([] : List Message)).filter (isEventMarkerFor e3.id))
      (([] : List Message).filter (isEventMarkerFor e3.id)) :=
  c3_no_double_injection "normal" DEFAULT_SETTINGS
    { latestContext := some e3, latestSystemNote := some "note" } 0 12 [] e3 rfl rfl

-- ============================================================
-- C8 — ambient note upsert is idempotent in place
-- ============================================================

/-- An ambient-marked message, as the interceptor itself would have left it. -/
def markerMsg : Message := systemNoteMsg "x" 0

/-- C8 counterexample: the claim quantifies over every message sequence, but
on a sequence already containing two ambient-marker entries, two interceptor
runs (enabled, non-quiet, unchanged ambient note, no cached event) leave two
marker entries, not exactly one — each run only replaces the first. -/
theorem c8_counterexample :
    (companionLinkInterceptor "normal" DEFAULT_SETTINGS
        { latestSystemNote := some "note" } 1 12
        (companionLinkInterceptor "normal" DEFAULT_SETTINGS
          { latestSystemNote := some "note" } 0 12
          [markerMsg, markerMsg])).countP isAmbientMarker ≠ 1 := by
  decide

/-- C8 (amended): for every message sequence containing at most one
ambient-marker entry, running the interceptor twice (non-quiet generation,
feature enabled, the same non-empty cached ambient note, no cached event)
yields a sequence with exactly one ambient-marker entry, and the second run
replaces in place rather than inserting (it preserves the length). -/
theorem c8_ambient_idempotent (gtype : String) (settings : Settings) (st : ClientState)
    (now now2 hour hour2 : Nat) (chat : List Message)
    (hq : gtype ≠ "quiet") (hen : settings.enabled = true)
    (hnote : jsTruthyStr st.latestSystemNote = true) (hev : st.latestContext = none)
    (hchat : chat.countP isAmbientMarker ≤ 1) :
    ((companionLinkInterceptor gtype settings st now2 hour2
        (companionLinkInterceptor gtype settings st now hour chat)).countP
          isAmbientMarker = 1) ∧
    ((companionLinkInterceptor gtype settings st now2 hour2
        (companionLinkInterceptor gtype settings st now hour chat)).length
      = (companionLinkInterceptor gtype settings st now hour chat).length) := by
  have hrun : ∀ (n h : Nat) (c : List Message),
      companionLinkInterceptor gtype settings st n h c = ambientStep st.latestSystemNote n c := by
    intro n h c
    simp [companionLinkInterceptor, hq, hen, hev, eventStep]
  simp only [hrun]
  have h1 : (ambientStep st.latestSystemNote now chat).countP isAmbientMarker = 1 := by
    rw [ambientStep_countP_marker _ _ _ hnote]
    omega
  constructor
  · rw [ambientStep_countP_marker _ _ _ hnote, h1]
    omega
  · exact ambientStep_length_of_marker _ _ _ (by rw [h1]; omega)

/-- C8 witness: instantiation at an empty chat with a concrete note. -/
theorem c8_ambient_idempotent_witness :
    ((companionLinkInterceptor "normal" DEFAULT_SETTINGS
        { latestSystemNote := some "note" } 1 12
        (companionLinkInterceptor "normal" DEFAULT_SETTINGS
          { latestSystemNote := some "note" } 0 12 ([] : List Message))).countP
            isAmbientMarker = 1) ∧
    ((companionLinkInterceptor "normal" DEFAULT_SETTINGS
        { latestSystemNote := some "note" } 1 12
        (companionLinkInterceptor "normal" DEFAULT_SETTINGS
          { latestSystemNote := some "note" } 0 12 ([] : List Message))).length
      = (companionLinkInterceptor "normal" DEFAULT_SETTINGS
          { latestSystemNote := some "note" } 0 12 ([] : List Message)).length) :=
  c8_ambient_idempotent "normal" DEFAULT_SETTINGS { latestSystemNote := some "note" }
    0 1 12 12 [] (by decide) rfl rfl rfl (by decide)

-- ============================================================
-- C9 — the interceptor only inserts or replaces its own entry
-- ============================================================

/-- C9: for every generation type, settings and cached state, the interceptor
never shrinks the message sequence, and every pre-existing message not tagged
with this system's ambient-note marker survives in its original relative
order (as a subsequence of the output). -/
theorem c9_interceptor_preserves (gtype : String) (settings : Settings) (st : ClientState)
    (now hour : Nat) (chat : List Message) :
    chat.length ≤ (companionLinkInterceptor gtype settings st now hour chat).length ∧
    List.Sublist (chat.filter (fun m => !isAmbientMarker m))
      (companionLinkInterceptor gtype settings st now hour chat) := by
  unfold companionLinkInterceptor
  split
  · exact ⟨Nat.le_refl _, List.filter_sublist chat⟩
  · split
    · exact ⟨Nat.le_refl _, List.filter_sublist chat⟩
    · constructor
      · exact (ambientStep_length_ge st.latestSystemNote now chat).trans
          (eventStep_length_ge settings st.latestContext st.latestTelemetry now hour _)
      · have h1 : chat.filter (fun m => !isAmbientMarker m)
            = (ambientStep st.latestSystemNote now chat).filter (fun m => !isAmbientMarker m) :=
          (ambientStep_filter_nonmarker st.latestSystemNote now chat).symm
        rw [h1]
        exact (List.filter_sublist _).trans
          (eventStep_sublist settings st.latestContext st.latestTelemetry now hour _)

-- ============================================================
-- C6 — no character-budget truncation in text synthesis
-- ============================================================

/-- An event whose pre-rendered text alone exceeds the default 1200-char cap. -/
def e6 : Entry := { e0 with formatted_text := String.mk (List.replicate 1201 'a') }

set_option maxRecDepth 8000 in
/-- C6 counterexample: with a 1201-character `formatted_text` and the default
settings (`context_max_length = 1200`), the synthesized injection text
strictly exceeds the configured maximum character budget. -/
theorem c6_counterexample :
    (buildInjectionText e6 DEFAULT_SETTINGS 12 none).isSome = true ∧
    DEFAULT_SETTINGS.context_max_length <
      ((buildInjectionText e6 DEFAULT_SETTINGS 12 none).getD "").length := by
  decide

/-- C6 (amended): `buildInjectionText` never truncates.  Whenever it produces
a result, the result is the event's `formatted_text` followed by a separator
and the narrative body — at least two characters longer than `formatted_text`
— so no bound in terms of `context_max_length` holds (the settings argument is
never consulted). -/
theorem c6_no_truncation (ctx : Entry) (s : Settings) (hour : Nat)
    (tel : Option Telemetry)
    (hsome : (buildInjectionText ctx s hour tel).isSome = true) :
    ctx.formatted_text.length + 2 ≤ ((buildInjectionText ctx s hour tel).getD "").length ∧
    ∃ rest, (buildInjectionText ctx s hour tel).getD "" = ctx.formatted_text ++ rest := by
  by_cases hf : ctx.formatted_text = ""
  · rw [buildInjectionText] at hsome
    simp [hf] at hsome
  · have hbe : (ctx.formatted_text == "") = false := beq_eq_false_iff_ne.mpr hf
    have heq : buildInjectionText ctx s hour tel
        = some (ctx.formatted_text ++ "\n\n" ++ injectionNarrative ctx hour tel) := by
      rw [buildInjectionText]
      simp [hbe]
    rw [heq, Option.getD_some]
    constructor
    · rw [String.length_append, String.length_append]
      have h2 : ("\n\n" : String).length = 2 := rfl
      omega
    · exact ⟨"\n\n" ++ injectionNarrative ctx hour tel,
        String.append_assoc ctx.formatted_text "\n\n" (injectionNarrative ctx hour tel)⟩

/-- C6 witness: instantiation of the amended theorem at a concrete event. -/
theorem c6_no_truncation_witness :
    e0.formatted_text.length + 2 ≤ ((buildInjectionText e0 DEFAULT_SETTINGS 12 none).getD "").length ∧
    ∃ rest, (buildInjectionText e0 DEFAULT_SETTINGS 12 none).getD "" = e0.formatted_text ++ rest :=
  c6_no_truncation e0 DEFAULT_SETTINGS 12 none (by decide)

-- ============================================================
-- C7 — synthesis requires the pre-rendered text
-- ============================================================

/-- An event with a populated payload but no pre-rendered text. -/
def e7 : Entry :=
  { e0 with formatted_text := "",
            note := { title := some "T", tags := ["a"], platform := some "xiaohongshu" } }

/-- C7 counterexample: an event with an empty `formatted_text` but a populated
payload yields no injection text at all — the consumer does not synthesize
from the payload, it skips. -/
theorem c7_counterexample :
    buildInjectionText e7 DEFAULT_SETTINGS 12 none = none := by
  decide

/-- C7 (amended): whenever the cached event's `formatted_text` is empty or
absent, `buildInjectionText` returns `null` regardless of the payload, the
settings, the hour and the telemetry: synthesis from the payload alone never
happens and injection is skipped. -/
theorem c7_requires_formatted_text (ctx : Entry) (s : Settings) (hour : Nat)
    (tel : Option Telemetry) (hempty : ctx.formatted_text = "") :
    buildInjectionText ctx s hour tel = none := by
  rw [buildInjectionText]
  simp [hempty]

/-- C7 witness: instantiation of the amended theorem at a concrete event. -/
theorem c7_requires_formatted_text_witness :
    buildInjectionText { e0 with formatted_text := "" } DEFAULT_SETTINGS 3 none = none :=
  c7_requires_formatted_text { e0 with formatted_text := "" } DEFAULT_SETTINGS 3 none rfl

end CompanionLink
